import Mathlib

/-!
Verification of the hubfly-cli tunnel engine.

The definitions below are a shallow embedding of the tunnel service
(`service` package: `handleStart`, `handleStop`, `handleStatus`,
`startTunnel`, `stopTunnel`, `forwardConnection`) and of the interactive
client (`internal/cli`: `runTunnelConnection`, `connectMultipleTunnels`,
`resolveTunnelForwardHost`).  Network I/O (key parsing, SSH dialing,
listener binding, running the external ssh process) is abstracted by
boolean oracles / exit-code oracles; resource handles are modelled as
numeric tokens tracked in open/closed sets, and the order of the
side-effecting statements is recorded as an event list.
-/

/-- `TunnelRequest` from the service package (JSON body of `POST /start`). -/
structure TunnelRequest where
  id : String
  sshHost : String
  sshPort : Nat
  sshUser : String
  privateKey : String
  localPort : Nat
  remoteHost : String
  remotePort : Nat
deriving DecidableEq, Repr

/-- `ActiveTunnel`: the request plus tokens standing for the live
listener, ssh client and quit channel. -/
structure ActiveTunnel where
  req : TunnelRequest
  listenerTok : Nat
  clientTok : Nat
  quitTok : Nat
deriving DecidableEq, Repr

/-- The manager state: the registry map (association list keyed by id)
plus the sets of currently open resource tokens.  `nextTok` is a fresh
token supply. -/
structure MState where
  tunnels : List (String × ActiveTunnel)
  openClients : List Nat
  openListeners : List Nat
  closedQuits : List Nat
  nextTok : Nat
deriving DecidableEq, Repr

/-- The empty manager state (`m := &manager{tunnels: make(map[...])}`). -/
def emptyMState : MState :=
  { tunnels := [], openClients := [], openListeners := [], closedQuits := [], nextTok := 0 }

/-- Go map read `m.tunnels[id]`. -/
def lookupTunnel : List (String × ActiveTunnel) → String → Option ActiveTunnel
  | [], _ => none
  | (k, v) :: rest, id => if k = id then some v else lookupTunnel rest id

/-- Go map write `m.tunnels[id] = t` (overwrites an existing key). -/
def insertTunnel : List (String × ActiveTunnel) → String → ActiveTunnel → List (String × ActiveTunnel)
  | [], id, t => [(id, t)]
  | (k, v) :: rest, id, t =>
      if k = id then (id, t) :: rest else (k, v) :: insertTunnel rest id t

/-- Go map delete `delete(m.tunnels, id)`: afterwards no entry with that
key remains. -/
def eraseTunnel : List (String × ActiveTunnel) → String → List (String × ActiveTunnel)
  | [], _ => []
  | (k, v) :: rest, id =>
      if k = id then eraseTunnel rest id else (k, v) :: eraseTunnel rest id

/-- Side-effecting statements of the service, in program order. -/
inductive Ev where
  | removeEntry (id : String)
  | closeQuit (tok : Nat)
  | closeListener (tok : Nat)
  | closeClient (tok : Nat)
  | openClient (tok : Nat)
  | bindListener (tok : Nat)
  | insertEntry (id : String)
deriving DecidableEq, Repr

/-- Teardown events: the closes performed by `stopTunnel` after the map
delete. -/
def isTeardown : Ev → Bool
  | Ev.closeQuit _ => true
  | Ev.closeListener _ => true
  | Ev.closeClient _ => true
  | _ => false

structure StopResult where
  res : Except String Unit
  state : MState
  evs : List Ev
deriving Repr

/-- `stopTunnel`: look up the id under the lock; unknown id is the error
`tunnel not found` with no side effect; otherwise delete the map entry
(still under the lock), then — after unlocking — close the quit channel,
the listener and the ssh client, in that order. -/
def stopTunnel (st : MState) (id : String) : StopResult :=
  match lookupTunnel st.tunnels id with
  | none => { res := Except.error ("tunnel not found"), state := st, evs := [] }
  | some t =>
      let st1 : MState := { st with tunnels := eraseTunnel st.tunnels id }
      let st2 : MState := { st1 with
        closedQuits := t.quitTok :: st1.closedQuits,
        openListeners := st1.openListeners.erase t.listenerTok,
        openClients := st1.openClients.erase t.clientTok }
      { res := Except.ok (), state := st2,
        evs := [Ev.removeEntry id, Ev.closeQuit t.quitTok,
                Ev.closeListener t.listenerTok, Ev.closeClient t.clientTok] }

/-- How key parsing, ssh dialing and listener binding turn out for one
`startTunnel` call (the I/O abstracted to its success/failure). -/
structure Oracle where
  parseOk : Bool
  dialOk : Bool
  listenOk : Bool
deriving DecidableEq, Repr

def allOk : Oracle := { parseOk := true, dialOk := true, listenOk := true }

inductive StartErr where
  | invalidKey
  | dialFailed
  | listenFailed
deriving DecidableEq, Repr

structure StartResult where
  res : Except StartErr Unit
  state : MState
  evs : List Ev
deriving Repr

/-- `startTunnel`: parse key (failure: return, nothing opened), dial ssh
(failure: return, nothing opened), bind the local listener (failure:
close the already-opened ssh client, then return), and on success build
the `ActiveTunnel` and insert it into the registry map under the lock. -/
def startTunnel (o : Oracle) (st : MState) (req : TunnelRequest) : StartResult :=
  if o.parseOk = false then
    { res := Except.error StartErr.invalidKey, state := st, evs := [] }
  else if o.dialOk = false then
    { res := Except.error StartErr.dialFailed, state := st, evs := [] }
  else
    let ctok := st.nextTok
    let st1 : MState := { st with openClients := ctok :: st.openClients, nextTok := st.nextTok + 1 }
    if o.listenOk = false then
      { res := Except.error StartErr.listenFailed,
        state := { st1 with openClients := st1.openClients.erase ctok },
        evs := [Ev.openClient ctok, Ev.closeClient ctok] }
    else
      let ltok := st1.nextTok
      let qtok := st1.nextTok + 1
      let t : ActiveTunnel := { req := req, listenerTok := ltok, clientTok := ctok, quitTok := qtok }
      { res := Except.ok (),
        state := { st1 with
          openListeners := ltok :: st1.openListeners,
          nextTok := st1.nextTok + 2,
          tunnels := insertTunnel st1.tunnels req.id t },
        evs := [Ev.openClient ctok, Ev.bindListener ltok, Ev.insertEntry req.id] }

/-- The field validation of `handleStart`: everything but `id` and
`ssh_user` is required. -/
def missingRequired (req : TunnelRequest) : Bool :=
  req.sshHost == "" || req.sshPort == 0 || req.privateKey == "" ||
  req.localPort == 0 || req.remoteHost == "" || req.remotePort == 0

/-- The defaulting of `handleStart`: empty user becomes `root`, empty id
becomes `tunnel-<local_port>`. -/
def applyDefaults (req : TunnelRequest) : TunnelRequest :=
  let r1 := if req.sshUser == "" then { req with sshUser := "root" } else req
  if r1.id == "" then { r1 with id := "tunnel-" ++ toString r1.localPort } else r1

structure HttpResp where
  status : Nat
  body : String
deriving DecidableEq, Repr

/-- `handleStart`, sequentialized: validate, apply defaults, check the
registry for a duplicate id (409), run `startTunnel`, then report 200
`initiated` if the id is now registered and 500 otherwise.  (In the Go
source the `startTunnel` runs in a goroutine and the final check happens
after a 500 ms sleep; this definition is the interleaving in which the
start finishes before the check.) -/
def handleStartSeq (o : Oracle) (st : MState) (req : TunnelRequest) : HttpResp × MState :=
  if missingRequired req then
    ({ status := 400, body := "Missing required fields" }, st)
  else
    let r := applyDefaults req
    if (lookupTunnel st.tunnels r.id).isSome then
      ({ status := 409, body := "Tunnel with ID " ++ r.id ++ " already exists" }, st)
    else
      let sr := startTunnel o st r
      if (lookupTunnel sr.state.tunnels r.id).isSome then
        ({ status := 200, body := "initiated:" ++ r.id }, sr.state)
      else
        ({ status := 500, body := "Failed to establish tunnel connection immediately. Check logs." }, sr.state)

/-- `handleStop`: any `stopTunnel` error is answered 404; success is 200
`Tunnel stopped`. -/
def handleStop (st : MState) (id : String) : HttpResp × MState :=
  let r := stopTunnel st id
  match r.res with
  | Except.error e => ({ status := 404, body := e }, r.state)
  | Except.ok _ => ({ status := 200, body := "Tunnel stopped" }, r.state)

/-- One row of `GET /status`. -/
structure TunnelStatus where
  id : String
  localPort : Nat
  target : String
  status : String
  sshServer : String
deriving DecidableEq, Repr

def statusOf (id : String) (t : ActiveTunnel) : TunnelStatus :=
  { id := id, localPort := t.req.localPort,
    target := t.req.remoteHost ++ ":" ++ toString t.req.remotePort,
    sshServer := t.req.sshHost ++ ":" ++ toString t.req.sshPort,
    status := "active" }

/-- `handleStatus`: one row per live registry entry, each with status
`active`. -/
def handleStatus (st : MState) : List TunnelStatus :=
  st.tunnels.map (fun p => statusOf p.1 p.2)

/-- What `forwardConnection` does to its two connections, in order.  The
local close is deferred first (runs last); the remote close is deferred
only after a successful dial. -/
inductive FwdEv where
  | dialRemote (ok : Bool)
  | copyDone
  | closeRemote
  | closeLocal
deriving DecidableEq, Repr

/-- `forwardConnection`: dial the remote target over the ssh client; on
failure, return (only the deferred local close runs); on success, copy
both directions until one side finishes, then the deferred closes run in
LIFO order. -/
def forwardConnection (dialOk : Bool) : List FwdEv :=
  if dialOk then
    [FwdEv.dialRemote true, FwdEv.copyDone, FwdEv.closeRemote, FwdEv.closeLocal]
  else
    [FwdEv.dialRemote false, FwdEv.closeLocal]

/-- What the accept loop observes: an accepted connection (whose
forwarder dial may succeed or fail) or an accept error. -/
inductive AcceptEv where
  | incoming (dialOk : Bool)
  | acceptErr
deriving DecidableEq, Repr

structure LoopResult where
  state : MState
  exited : Bool
deriving Repr

/-- The accept-loop goroutine of `startTunnel`: each accepted connection
spawns a forwarder (which never touches the registry) and the loop goes
on; an accept error ends the loop and the deferred `stopTunnel(req.ID)`
runs (a no-op if a stop request already removed the entry). -/
def acceptLoop (st : MState) (t : ActiveTunnel) : List AcceptEv → LoopResult
  | [] => { state := st, exited := false }
  | AcceptEv.incoming _ :: rest => acceptLoop st t rest
  | AcceptEv.acceptErr :: _ => { state := (stopTunnel st t.req.id).state, exited := true }

/-! ### Concurrent create: two `/start` requests interleaved

`handleStart` holds the registry lock for the duplicate check, releases
it, and the insert happens later inside `startTunnel` under a separate
lock acquisition.  Each thread below runs the three atomic sections of
that code path: duplicate check, `startTunnel`, response check. -/

inductive CreateOutcome where
  | badRequest
  | conflict
  | initiated
  | failedStart
deriving DecidableEq, Repr

structure CThread where
  req : TunnelRequest
  oracle : Oracle
  pc : Nat
  outcome : Option CreateOutcome
deriving DecidableEq, Repr

def cstep (st : MState) (th : CThread) : MState × CThread :=
  match th.pc with
  | 0 =>
      if missingRequired th.req then
        (st, { th with pc := 3, outcome := some CreateOutcome.badRequest })
      else if (lookupTunnel st.tunnels (applyDefaults th.req).id).isSome then
        (st, { th with pc := 3, outcome := some CreateOutcome.conflict })
      else
        (st, { th with pc := 1 })
  | 1 =>
      let r := startTunnel th.oracle st (applyDefaults th.req)
      (r.state, { th with pc := 2 })
  | 2 =>
      if (lookupTunnel st.tunnels (applyDefaults th.req).id).isSome then
        (st, { th with pc := 3, outcome := some CreateOutcome.initiated })
      else
        (st, { th with pc := 3, outcome := some CreateOutcome.failedStart })
  | _ => (st, th)

structure CSys where
  st : MState
  thA : CThread
  thB : CThread
deriving DecidableEq, Repr

def schedStep (s : CSys) (pickA : Bool) : CSys :=
  if pickA then
    let p := cstep s.st s.thA
    { s with st := p.1, thA := p.2 }
  else
    let p := cstep s.st s.thB
    { s with st := p.1, thB := p.2 }

def runSched : CSys → List Bool → CSys
  | s, [] => s
  | s, b :: rest => runSched (schedStep s b) rest

/-- Two otherwise-valid create requests carrying the same id `t` but
different local ports. -/
def raceReqA : TunnelRequest :=
  { id := "t", sshHost := "h", sshPort := 22, sshUser := "root",
    privateKey := "k", localPort := 8080, remoteHost := "r", remotePort := 80 }

def raceReqB : TunnelRequest :=
  { raceReqA with localPort := 8081 }

def raceSys0 : CSys :=
  { st := emptyMState,
    thA := { req := raceReqA, oracle := allOk, pc := 0, outcome := none },
    thB := { req := raceReqB, oracle := allOk, pc := 0, outcome := none } }

/-- The interleaving check-A, check-B, start-A, start-B, respond-A,
respond-B. -/
def raceSched : List Bool := [true, false, true, false, true, false]

/-! ### Multi-session start (`connectMultipleTunnels`, start phase) -/

inductive MEv where
  | started (i : Nat)
  | stopped (i : Nat)
deriving DecidableEq, Repr

structure MultiStartResult where
  res : Except String (List Nat)
  running : List Nat
  evs : List MEv
deriving Repr

/-- The start loop of `connectMultipleTunnels` over the planned tunnels:
start each in the background (the i-th started process is token `i`); on
the first failure, stop every process started so far and return the one
aggregate error naming the failing tunnel. -/
def startAllAux (ok : Nat → Bool) : List String → Nat → List Nat → List MEv → MultiStartResult
  | [], _, cmds, evs => { res := Except.ok cmds, running := cmds, evs := evs }
  | p :: rest, i, cmds, evs =>
      if ok i then
        startAllAux ok rest (i + 1) (cmds ++ [i]) (evs ++ [MEv.started i])
      else
        { res := Except.error ("failed to start " ++ p),
          running := [],
          evs := evs ++ cmds.map MEv.stopped }

def startAllTunnels (ok : Nat → Bool) (plans : List String) : MultiStartResult :=
  startAllAux ok plans 0 [] []

def demoOk : Nat → Bool := fun i => i == 0

def demoPlans : List String := ["a", "b", "c"]

/-! ### Single-session retry loop (`runTunnelConnection`) -/

def maxRetries : Nat := 3

def retryDelaySeconds : Nat := 2

/-- Exit-code classification of the ssh process: `nil` error is 0, an
exit error carries its code; 0 and 130 (SIGINT convention) are clean. -/
def isCleanExit (code : Int) : Bool := code == 0 || code == 130

structure RunResult where
  outcome : Except Int Unit
  attempts : Nat
  sleepSeconds : Nat
deriving Repr

/-- The retry loop of `runTunnelConnection` from a given attempt number
with a given number of loop iterations left: sleep `retryDelaySeconds`
at the top of every iteration but the first, run the ssh process (exit
code given by the oracle `codes`), return success on a clean exit, and
on an abnormal exit of the last permitted attempt return the error
naming that exit code. -/
def runTunnelFrom (codes : Nat → Int) (attempt : Nat) : Nat → RunResult
  | 0 => { outcome := Except.ok (), attempts := 0, sleepSeconds := 0 }
  | remaining + 1 =>
      let s := if attempt > 1 then retryDelaySeconds else 0
      let code := codes attempt
      if isCleanExit code then
        { outcome := Except.ok (), attempts := 1, sleepSeconds := s }
      else if remaining = 0 then
        { outcome := Except.error code, attempts := 1, sleepSeconds := s }
      else
        let rest := runTunnelFrom codes (attempt + 1) remaining
        { outcome := rest.outcome, attempts := rest.attempts + 1,
          sleepSeconds := rest.sleepSeconds + s }

def runTunnelConnection (codes : Nat → Int) : RunResult :=
  runTunnelFrom codes 1 (maxRetries + 1)

def demoCodes : Nat → Int := fun k => if k = 3 then 130 else 7

/-! ### Forward-target resolution (`resolveTunnelForwardHost`) -/

structure TargetNetwork where
  ipAddress : String
  aliases : List String
deriving DecidableEq, Repr

structure Tunnel where
  tunnelId : String
  sshHost : String
  sshPort : Nat
  sshUser : String
  targetPort : Nat
  targetContainerId : String
  targetNetwork : TargetNetwork
  dockerName : String
  expiresAt : String
deriving DecidableEq, Repr

/-- The alias scan of `resolveTunnelForwardHost`: the first alias that is
non-blank after trimming, returned trimmed. -/
def firstNonBlankAlias : List String → Option String
  | [] => none
  | a :: rest => if a.trim ≠ "" then some a.trim else firstNonBlankAlias rest

/-- `resolveTunnelForwardHost`: docker-assigned name if non-blank, else
the first non-blank network alias, else the IP address if non-blank,
else `127.0.0.1`. -/
def resolveTunnelForwardHost (t : Tunnel) : String :=
  if t.dockerName.trim ≠ "" then t.dockerName.trim
  else
    match firstNonBlankAlias t.targetNetwork.aliases with
    | some a => a
    | none =>
        if t.targetNetwork.ipAddress.trim ≠ "" then t.targetNetwork.ipAddress.trim
        else "127.0.0.1"

/-- The resolution order exactly as the spec words it: one priority list
docker name, then the aliases, then the IP address; the first candidate
that is non-empty after trimming wins, with `127.0.0.1` as the final
fallback. -/
def resolveForwardHostSpec (t : Tunnel) : String :=
  let candidates :=
    (t.dockerName :: (t.targetNetwork.aliases ++ [t.targetNetwork.ipAddress])).map String.trim
  match candidates.filter (fun c => c ≠ "") with
  | [] => "127.0.0.1"
  | c :: _ => c

/-! ### Concrete sample inputs used by the witnesses -/

def sampleTunnel : ActiveTunnel :=
  { req := raceReqA, listenerTok := 1, clientTok := 0, quitTok := 2 }

/-- A manager state holding one live tunnel registered under `t`. -/
def sampleState : MState :=
  { tunnels := [("t", sampleTunnel)], openClients := [0], openListeners := [1],
    closedQuits := [], nextTok := 3 }

/-- A valid start request that leaves the id field empty. -/
def noIdReq : TunnelRequest :=
  { raceReqA with id := "" }

/-- An oracle whose listener bind fails after a successful dial. -/
def bindFailOracle : Oracle :=
  { parseOk := true, dialOk := true, listenOk := false }

/-! ## Helper lemmas -/

theorem lookupTunnel_erase_self (l : List (String × ActiveTunnel)) (id : String) :
    lookupTunnel (eraseTunnel l id) id = none := by
  induction l with
  | nil => rfl
  | cons p rest ih =>
      obtain ⟨k, v⟩ := p
      by_cases h : k = id
      · simpa [eraseTunnel, h] using ih
      · simpa [eraseTunnel, h, lookupTunnel] using ih

theorem lookupTunnel_insert_self (l : List (String × ActiveTunnel)) (id : String)
    (t : ActiveTunnel) : lookupTunnel (insertTunnel l id t) id = some t := by
  induction l with
  | nil => simp [insertTunnel, lookupTunnel]
  | cons p rest ih =>
      obtain ⟨k, v⟩ := p
      by_cases h : k = id
      · simp [insertTunnel, h, lookupTunnel]
      · simpa [insertTunnel, h, lookupTunnel] using ih

theorem mem_eraseTunnel_key_ne (l : List (String × ActiveTunnel)) (id : String) :
    ∀ p ∈ eraseTunnel l id, p.1 ≠ id := by
  induction l with
  | nil => intro p hp; simp [eraseTunnel] at hp
  | cons q rest ih =>
      obtain ⟨k, v⟩ := q
      intro p hp
      by_cases h : k = id
      · exact ih p (by simpa [eraseTunnel, h] using hp)
      · rcases (by simpa [eraseTunnel, h] using hp : p = (k, v) ∨ p ∈ eraseTunnel rest id) with
          h1 | h2
        · subst h1; simpa using h
        · exact ih p h2

theorem lookupTunnel_none_key_ne (l : List (String × ActiveTunnel)) (id : String)
    (h : lookupTunnel l id = none) : ∀ p ∈ l, p.1 ≠ id := by
  induction l with
  | nil => intro p hp; simp at hp
  | cons q rest ih =>
      obtain ⟨k, v⟩ := q
      intro p hp
      by_cases hk : k = id
      · simp [lookupTunnel, hk] at h
      · rcases List.mem_cons.mp hp with h1 | h2
        · subst h1; simpa using hk
        · exact ih (by simpa [lookupTunnel, hk] using h) p h2

theorem applyDefaults_id_of_ne (req : TunnelRequest) (h : req.id ≠ "") :
    (applyDefaults req).id = req.id ∧ (applyDefaults req).localPort = req.localPort := by
  by_cases hu : req.sshUser == "" <;> simp_all [applyDefaults]

theorem applyDefaults_id_of_empty (req : TunnelRequest) (h : req.id = "") :
    (applyDefaults req).id = "tunnel-" ++ toString req.localPort ∧
    (applyDefaults req).localPort = req.localPort := by
  by_cases hu : req.sshUser == "" <;> simp_all [applyDefaults]

theorem handleStatus_all_active (st : MState) :
    ∀ s ∈ handleStatus st, s.status = "active" := by
  intro s hs
  rcases List.mem_map.mp hs with ⟨p, _, rfl⟩
  rfl

theorem handleStop_notfound (st : MState) (id : String)
    (h : lookupTunnel st.tunnels id = none) :
    (handleStop st id).1.status = 404 ∧ (stopTunnel st id).evs = [] := by
  simp [handleStop, stopTunnel, h]

/-! ## Claim theorems -/

/-- C3: `stop(id)` on a live session succeeds, removes the registry
entry as its very first step (head event), performs only teardown
closes afterwards, and the identifier is immediately reusable: a create
for the same id against the post-stop state is answered 200. -/
theorem stop_removes_entry_before_teardown
    (st : MState) (id : String) (t : ActiveTunnel) (req2 : TunnelRequest)
    (hlive : lookupTunnel st.tunnels id = some t)
    (hid : id ≠ "")
    (hreq2 : req2.id = id) (hval2 : missingRequired req2 = false) :
    (stopTunnel st id).res = Except.ok ()
    ∧ lookupTunnel (stopTunnel st id).state.tunnels id = none
    ∧ (stopTunnel st id).evs.head? = some (Ev.removeEntry id)
    ∧ (∀ e ∈ (stopTunnel st id).evs.tail, isTeardown e = true)
    ∧ (handleStartSeq allOk (stopTunnel st id).state req2).1.status = 200 := by
  have hid2 : (applyDefaults req2).id = id := by
    rw [← hreq2]
    exact (applyDefaults_id_of_ne req2 (by rw [hreq2]; exact hid)).1
  have hfresh : lookupTunnel (eraseTunnel st.tunnels id) id = none :=
    lookupTunnel_erase_self st.tunnels id
  refine ⟨?_, ?_, ?_, ?_, ?_⟩
  · simp [stopTunnel, hlive]
  · simp [stopTunnel, hlive, lookupTunnel_erase_self]
  · simp [stopTunnel, hlive]
  · intro e he
    rcases (by simpa [stopTunnel, hlive] using he :
        e = Ev.closeQuit t.quitTok ∨ e = Ev.closeListener t.listenerTok ∨
        e = Ev.closeClient t.clientTok) with rfl | rfl | rfl <;> rfl
  · simp [stopTunnel, hlive, handleStartSeq, hval2, hid2, hfresh, startTunnel, allOk,
      lookupTunnel_insert_self]

theorem stop_removes_entry_before_teardown_witness :
    (stopTunnel sampleState "t").res = Except.ok ()
    ∧ lookupTunnel (stopTunnel sampleState "t").state.tunnels "t" = none
    ∧ (stopTunnel sampleState "t").evs.head? = some (Ev.removeEntry "t")
    ∧ (∀ e ∈ (stopTunnel sampleState "t").evs.tail, isTeardown e = true)
    ∧ (handleStartSeq allOk (stopTunnel sampleState "t").state raceReqA).1.status = 200 :=
  stop_removes_entry_before_teardown sampleState "t" sampleTunnel raceReqA
    (by decide) (by decide) (by decide) (by decide)

/-- C4: stop is total and idempotent: stopping an unknown or
already-stopped id yields the `tunnel not found` error, answered 404,
with no close events executed (no double-close); stopping a live id
succeeds exactly once, and the immediate second stop is NotFound. -/
theorem stop_idempotent_notfound (st : MState) (id : String) :
    (lookupTunnel st.tunnels id = none →
      (stopTunnel st id).res = Except.error ("tunnel not found")
      ∧ (stopTunnel st id).state = st
      ∧ (stopTunnel st id).evs = []
      ∧ (handleStop st id).1.status = 404)
    ∧ (∀ t, lookupTunnel st.tunnels id = some t →
      (stopTunnel st id).res = Except.ok ()
      ∧ (handleStop (stopTunnel st id).state id).1.status = 404
      ∧ (stopTunnel (stopTunnel st id).state id).evs = []) := by
  constructor
  · intro h
    refine ⟨?_, ?_, ?_, ?_⟩ <;> simp [stopTunnel, handleStop, h]
  · intro t h
    have h2 : lookupTunnel (stopTunnel st id).state.tunnels id = none := by
      simp [stopTunnel, h, lookupTunnel_erase_self]
    refine ⟨?_, ?_, ?_⟩
    · simp [stopTunnel, h]
    · exact (handleStop_notfound _ _ h2).1
    · exact (handleStop_notfound _ _ h2).2

theorem stop_idempotent_notfound_witness :
    ((stopTunnel emptyMState "x").res = Except.error ("tunnel not found")
      ∧ (handleStop emptyMState "x").1.status = 404)
    ∧ ((stopTunnel sampleState "t").res = Except.ok ()
      ∧ (handleStop (stopTunnel sampleState "t").state "t").1.status = 404
      ∧ (stopTunnel (stopTunnel sampleState "t").state "t").evs = []) := by
  have h1 := (stop_idempotent_notfound emptyMState "x").1 (by decide)
  have h2 := (stop_idempotent_notfound sampleState "t").2 sampleTunnel (by decide)
  exact ⟨⟨h1.1, h1.2.2.2⟩, h2⟩

/-- C5: a failed session start (key parse, ssh dial or listener bind)
returns an error and leaves no residual state: the registry map, the
open-client set and the open-listener set are unchanged, and when the
bind fails after a successful dial the already-opened transport is
closed before the error is returned. -/
theorem startTunnel_failure_no_residue
    (o : Oracle) (st : MState) (req : TunnelRequest)
    (h : o.parseOk = false ∨ o.dialOk = false ∨ o.listenOk = false) :
    (∃ e, (startTunnel o st req).res = Except.error e)
    ∧ (startTunnel o st req).state.tunnels = st.tunnels
    ∧ (startTunnel o st req).state.openClients = st.openClients
    ∧ (startTunnel o st req).state.openListeners = st.openListeners
    ∧ (o.parseOk = true → o.dialOk = true →
        (startTunnel o st req).evs = [Ev.openClient st.nextTok, Ev.closeClient st.nextTok]) := by
  cases hp : o.parseOk with
  | false =>
      refine ⟨⟨StartErr.invalidKey, ?_⟩, ?_, ?_, ?_, ?_⟩ <;> simp [startTunnel, hp]
  | true =>
      cases hd : o.dialOk with
      | false =>
          refine ⟨⟨StartErr.dialFailed, ?_⟩, ?_, ?_, ?_, ?_⟩ <;> simp [startTunnel, hp, hd]
      | true =>
          cases hl : o.listenOk with
          | false =>
              refine ⟨⟨StartErr.listenFailed, ?_⟩, ?_, ?_, ?_, fun _ _ => ?_⟩ <;>
                simp [startTunnel, hp, hd, hl, List.erase_cons_head]
          | true => simp [hp, hd, hl] at h

theorem startTunnel_failure_no_residue_witness :
    (∃ e, (startTunnel bindFailOracle emptyMState raceReqA).res = Except.error e)
    ∧ (startTunnel bindFailOracle emptyMState raceReqA).state.tunnels = emptyMState.tunnels
    ∧ (startTunnel bindFailOracle emptyMState raceReqA).state.openClients
        = emptyMState.openClients
    ∧ (startTunnel bindFailOracle emptyMState raceReqA).state.openListeners
        = emptyMState.openListeners
    ∧ (bindFailOracle.parseOk = true → bindFailOracle.dialOk = true →
        (startTunnel bindFailOracle emptyMState raceReqA).evs =
          [Ev.openClient emptyMState.nextTok, Ev.closeClient emptyMState.nextTok]) :=
  startTunnel_failure_no_residue bindFailOracle emptyMState raceReqA (by decide)

theorem acceptLoop_skip_incoming (st : MState) (t : ActiveTunnel) (pre rest : List AcceptEv)
    (h : ∀ e ∈ pre, e ≠ AcceptEv.acceptErr) :
    acceptLoop st t (pre ++ rest) = acceptLoop st t rest := by
  induction pre with
  | nil => rfl
  | cons e pre ih =>
      cases e with
      | incoming ok =>
          simp only [List.cons_append, acceptLoop]
          exact ih (fun e he => h e (List.mem_cons_of_mem _ he))
      | acceptErr => exact absurd rfl (h AcceptEv.acceptErr (List.mem_cons_self _ _))

/-- C6: a forwarder whose remote dial fails closes only the local
connection (no remote close, since none was opened); the error never
reaches the owning session: the accept loop keeps running, the registry
entry is untouched and still reported active. -/
theorem forwarder_dial_failure_confined
    (st : MState) (t : ActiveTunnel) (evs : List AcceptEv)
    (hreg : lookupTunnel st.tunnels t.req.id = some t)
    (hin : ∀ e ∈ evs, e ≠ AcceptEv.acceptErr) :
    forwardConnection false = [FwdEv.dialRemote false, FwdEv.closeLocal]
    ∧ FwdEv.closeRemote ∉ forwardConnection false
    ∧ (acceptLoop st t evs).state = st
    ∧ (acceptLoop st t evs).exited = false
    ∧ lookupTunnel (acceptLoop st t evs).state.tunnels t.req.id = some t
    ∧ (statusOf t.req.id t).status = "active" := by
  have hrun : acceptLoop st t evs = { state := st, exited := false } := by
    have h0 := acceptLoop_skip_incoming st t evs [] hin
    simpa [acceptLoop] using h0
  refine ⟨rfl, by decide, ?_, ?_, ?_, rfl⟩
  · rw [hrun]
  · rw [hrun]
  · rw [hrun]; exact hreg

theorem forwarder_dial_failure_confined_witness :
    forwardConnection false = [FwdEv.dialRemote false, FwdEv.closeLocal]
    ∧ FwdEv.closeRemote ∉ forwardConnection false
    ∧ (acceptLoop sampleState sampleTunnel [AcceptEv.incoming false]).state = sampleState
    ∧ (acceptLoop sampleState sampleTunnel [AcceptEv.incoming false]).exited = false
    ∧ lookupTunnel (acceptLoop sampleState sampleTunnel [AcceptEv.incoming false]).state.tunnels
        sampleTunnel.req.id = some sampleTunnel
    ∧ (statusOf sampleTunnel.req.id sampleTunnel).status = "active" :=
  forwarder_dial_failure_confined sampleState sampleTunnel [AcceptEv.incoming false]
    (by decide) (by decide)

/-- C7 counterexample: with exactly one live session (id `t`), a
spontaneous accept error makes the session self-remove, but the next
status query returns the empty list: no entry with status `failed`
exists, so the failure is not reflected — the session is silently
dropped, contrary to the claim. -/
theorem acceptErr_not_reported_failed :
    (acceptLoop sampleState sampleTunnel [AcceptEv.acceptErr]).exited = true
    ∧ lookupTunnel (acceptLoop sampleState sampleTunnel [AcceptEv.acceptErr]).state.tunnels
        "t" = none
    ∧ handleStatus (acceptLoop sampleState sampleTunnel [AcceptEv.acceptErr]).state = []
    ∧ ¬ ∃ s ∈ handleStatus (acceptLoop sampleState sampleTunnel [AcceptEv.acceptErr]).state,
        s.status = "failed" := by
  decide

/-- C7 amended: when the accept loop exits with a spontaneous error the
session does self-remove from the registry, but a later status query
simply omits it: every reported entry has status `active` and none
carries the failed session's id. -/
theorem acceptErr_self_removes_status_omits
    (st : MState) (t : ActiveTunnel) (pre : List AcceptEv)
    (hpre : ∀ e ∈ pre, e ≠ AcceptEv.acceptErr) :
    (acceptLoop st t (pre ++ [AcceptEv.acceptErr])).exited = true
    ∧ lookupTunnel (acceptLoop st t (pre ++ [AcceptEv.acceptErr])).state.tunnels t.req.id = none
    ∧ (∀ s ∈ handleStatus (acceptLoop st t (pre ++ [AcceptEv.acceptErr])).state,
        s.status = "active")
    ∧ (∀ s ∈ handleStatus (acceptLoop st t (pre ++ [AcceptEv.acceptErr])).state,
        s.id ≠ t.req.id) := by
  rw [acceptLoop_skip_incoming st t pre [AcceptEv.acceptErr] hpre]
  have hexit : acceptLoop st t [AcceptEv.acceptErr]
      = { state := (stopTunnel st t.req.id).state, exited := true } := rfl
  rw [hexit]
  refine ⟨rfl, ?_, handleStatus_all_active _, ?_⟩
  · cases hl : lookupTunnel st.tunnels t.req.id with
    | none => simp [stopTunnel, hl]
    | some u => simp [stopTunnel, hl, lookupTunnel_erase_self]
  · intro s hs
    rcases List.mem_map.mp hs with ⟨p, hp, rfl⟩
    cases hl : lookupTunnel st.tunnels t.req.id with
    | none =>
        exact lookupTunnel_none_key_ne st.tunnels t.req.id hl p
          (by simpa [stopTunnel, hl] using hp)
    | some u =>
        exact mem_eraseTunnel_key_ne st.tunnels t.req.id p
          (by simpa [stopTunnel, hl] using hp)

theorem acceptErr_self_removes_status_omits_witness :
    (acceptLoop sampleState sampleTunnel
        ([AcceptEv.incoming false] ++ [AcceptEv.acceptErr])).exited = true
    ∧ lookupTunnel (acceptLoop sampleState sampleTunnel
        ([AcceptEv.incoming false] ++ [AcceptEv.acceptErr])).state.tunnels
        sampleTunnel.req.id = none
    ∧ (∀ s ∈ handleStatus (acceptLoop sampleState sampleTunnel
        ([AcceptEv.incoming false] ++ [AcceptEv.acceptErr])).state, s.status = "active")
    ∧ (∀ s ∈ handleStatus (acceptLoop sampleState sampleTunnel
        ([AcceptEv.incoming false] ++ [AcceptEv.acceptErr])).state, s.id ≠ sampleTunnel.req.id) :=
  acceptErr_self_removes_status_omits sampleState sampleTunnel [AcceptEv.incoming false]
    (by decide)

theorem firstNonBlankAlias_eq_filter_head (l : List String) :
    firstNonBlankAlias l = ((l.map String.trim).filter (fun c => c ≠ "")).head? := by
  induction l with
  | nil => rfl
  | cons a rest ih =>
      by_cases h : a.trim = ""
      · simp [firstNonBlankAlias, h, ih, List.filter_cons]
      · simp [firstNonBlankAlias, h, List.filter_cons]

/-- C9: the forward-target host resolution equals the spec's priority
list: docker-assigned name, else first non-blank network alias, else
the IP address, else `127.0.0.1`, all compared after trimming. -/
theorem resolveTunnelForwardHost_eq_spec (t : Tunnel) :
    resolveTunnelForwardHost t = resolveForwardHostSpec t := by
  unfold resolveTunnelForwardHost resolveForwardHostSpec
  by_cases hd : t.dockerName.trim = ""
  · rw [firstNonBlankAlias_eq_filter_head]
    cases hfl : (t.targetNetwork.aliases.map String.trim).filter (fun c => c ≠ "") with
    | nil =>
        simp only [ne_eq, decide_not] at hfl
        by_cases hip : t.targetNetwork.ipAddress.trim = "" <;>
          simp [hd, hfl, hip, List.filter_append, List.filter_cons]
    | cons a l2 =>
        simp only [ne_eq, decide_not] at hfl
        simp [hd, hfl, List.filter_append, List.filter_cons]
  · simp [hd, List.filter_cons]

/-- C10: a start request passing field validation with an empty id gets
the derived identifier `tunnel-<local_port>`, is started and answered
200 under that id, and a second id-less request naming the same local
port is answered 409 Conflict while the first is live. -/
theorem startSeq_default_id_conflict
    (st : MState) (req req2 : TunnelRequest) (o2 : Oracle)
    (hval : missingRequired req = false) (hid : req.id = "")
    (hfresh : lookupTunnel st.tunnels ("tunnel-" ++ toString req.localPort) = none)
    (hval2 : missingRequired req2 = false) (hid2 : req2.id = "")
    (hport : req2.localPort = req.localPort) :
    (applyDefaults req).id = "tunnel-" ++ toString req.localPort
    ∧ (handleStartSeq allOk st req).1.status = 200
    ∧ (handleStartSeq allOk st req).1.body = "initiated:" ++ ("tunnel-" ++ toString req.localPort)
    ∧ (handleStartSeq o2 (handleStartSeq allOk st req).2 req2).1.status = 409 := by
  have h1 := applyDefaults_id_of_empty req hid
  have h2 := applyDefaults_id_of_empty req2 hid2
  refine ⟨h1.1, ?_, ?_, ?_⟩ <;>
    simp [handleStartSeq, hval, hval2, h1.1, h2.1, hport, hfresh, startTunnel, allOk,
      lookupTunnel_insert_self]

theorem startSeq_default_id_conflict_witness :
    (applyDefaults noIdReq).id = "tunnel-" ++ toString noIdReq.localPort
    ∧ (handleStartSeq allOk emptyMState noIdReq).1.status = 200
    ∧ (handleStartSeq allOk emptyMState noIdReq).1.body
        = "initiated:" ++ ("tunnel-" ++ toString noIdReq.localPort)
    ∧ (handleStartSeq allOk (handleStartSeq allOk emptyMState noIdReq).2 noIdReq).1.status
        = 409 :=
  startSeq_default_id_conflict emptyMState noIdReq noIdReq allOk
    (by decide) (by decide) (by decide) (by decide) (by decide) (by decide)

/-- C1, evaluated at the failing interleaving: two concurrent create
requests carrying the same id `t` (local ports 8080 and 8081), scheduled
check-A, check-B, start-A, start-B, respond-A, respond-B, both pass the
duplicate check and both are answered `initiated`; the second insertion
overwrites the first in the registry while both listeners stay bound.
The duplicate check and the insertion are not one atomic step, so the
claimed invariant (exactly one Active entry, one Conflict, no second
listener) fails. -/
theorem registry_race_both_creates_succeed :
    (runSched raceSys0 raceSched).thA.outcome = some CreateOutcome.initiated
    ∧ (runSched raceSys0 raceSched).thB.outcome = some CreateOutcome.initiated
    ∧ (runSched raceSys0 raceSched).st.tunnels.map Prod.fst = ["t"]
    ∧ (runSched raceSys0 raceSched).st.openListeners.length = 2 := by
  decide

theorem startAllAux_spec (ok : Nat → Bool) :
    ∀ (plans : List String) (i : Nat) (cmds : List Nat) (evs : List MEv),
    (∀ j, MEv.started j ∈ evs ↔ j ∈ cmds) →
    ((∀ c, (startAllAux ok plans i cmds evs).res = Except.ok c →
        (startAllAux ok plans i cmds evs).running = c
        ∧ c.length = cmds.length + plans.length)
     ∧ (∀ e, (startAllAux ok plans i cmds evs).res = Except.error e →
        (startAllAux ok plans i cmds evs).running = []
        ∧ ∀ j, MEv.started j ∈ (startAllAux ok plans i cmds evs).evs →
            MEv.stopped j ∈ (startAllAux ok plans i cmds evs).evs)) := by
  intro plans
  induction plans with
  | nil =>
      intro i cmds evs hinv
      constructor
      · intro c hc
        simp only [startAllAux] at hc ⊢
        cases hc
        exact ⟨rfl, by simp⟩
      · intro e he
        simp only [startAllAux] at he
        exact (Except.noConfusion he)
  | cons p rest ih =>
      intro i cmds evs hinv
      by_cases hok : ok i
      · have hinv2 : ∀ j, MEv.started j ∈ evs ++ [MEv.started i] ↔ j ∈ cmds ++ [i] := by
          intro j
          simp only [List.mem_append, List.mem_singleton, hinv j, MEv.started.injEq]
        have h := ih (i + 1) (cmds ++ [i]) (evs ++ [MEv.started i]) hinv2
        constructor
        · intro c hc
          have h1 := h.1 c (by simpa [startAllAux, hok] using hc)
          refine ⟨by simpa [startAllAux, hok] using h1.1, ?_⟩
          have := h1.2
          simp only [List.length_append, List.length_cons, List.length_nil] at this ⊢
          omega
        · intro e he
          have h2 := h.2 e (by simpa [startAllAux, hok] using he)
          exact ⟨by simpa [startAllAux, hok] using h2.1, by
            intro j hj
            have := h2.2 j (by simpa [startAllAux, hok] using hj)
            simpa [startAllAux, hok] using this⟩
      · constructor
        · intro c hc
          simp [startAllAux, hok] at hc
        · intro e he
          refine ⟨by simp [startAllAux, hok], ?_⟩
          intro j hj
          have hj2 : MEv.started j ∈ evs ∨ MEv.started j ∈ cmds.map MEv.stopped := by
            simpa [startAllAux, hok, List.mem_append] using hj
          have hjc : j ∈ cmds := by
            rcases hj2 with h1 | h1
            · exact (hinv j).mp h1
            · rcases List.mem_map.mp h1 with ⟨x, _, hx⟩
              cases hx
          simp only [startAllAux, hok, if_neg, Bool.false_eq_true, ite_false]
          simp only [List.mem_append]
          right
          exact List.mem_map.mpr ⟨j, hjc, rfl⟩

/-- C2: the multi-tunnel start phase is all-or-nothing: on success every
planned session is running; on any start failure every session that had
already been started is stopped before the single aggregate error is
returned, leaving zero sessions running. -/
theorem multi_start_all_or_nothing (ok : Nat → Bool) (plans : List String) :
    (∀ c, (startAllTunnels ok plans).res = Except.ok c →
        (startAllTunnels ok plans).running = c ∧ c.length = plans.length)
    ∧ (∀ e, (startAllTunnels ok plans).res = Except.error e →
        (startAllTunnels ok plans).running = []
        ∧ ∀ j, MEv.started j ∈ (startAllTunnels ok plans).evs →
            MEv.stopped j ∈ (startAllTunnels ok plans).evs) := by
  have h := startAllAux_spec ok plans 0 [] [] (by simp)
  exact ⟨fun c hc => by simpa using h.1 c hc, h.2⟩

theorem multi_start_all_or_nothing_witness :
    (startAllTunnels demoOk demoPlans).running = []
    ∧ MEv.stopped 0 ∈ (startAllTunnels demoOk demoPlans).evs := by
  have h := (multi_start_all_or_nothing demoOk demoPlans).2 ("failed to start b") (by rfl)
  exact ⟨h.1, h.2 0 (by decide)⟩

theorem runTunnel_clean1 (codes : Nat → Int) (h1 : isCleanExit (codes 1) = true) :
    runTunnelConnection codes
      = { outcome := Except.ok (), attempts := 1, sleepSeconds := 0 } := by
  simp [runTunnelConnection, maxRetries, runTunnelFrom, h1]

theorem runTunnel_clean2 (codes : Nat → Int) (h1 : isCleanExit (codes 1) = false)
    (h2 : isCleanExit (codes 2) = true) :
    runTunnelConnection codes
      = { outcome := Except.ok (), attempts := 2, sleepSeconds := retryDelaySeconds } := by
  simp [runTunnelConnection, maxRetries, runTunnelFrom, h1, h2]

theorem runTunnel_clean3 (codes : Nat → Int) (h1 : isCleanExit (codes 1) = false)
    (h2 : isCleanExit (codes 2) = false) (h3 : isCleanExit (codes 3) = true) :
    runTunnelConnection codes
      = { outcome := Except.ok (), attempts := 3, sleepSeconds := 2 * retryDelaySeconds } := by
  simp [runTunnelConnection, maxRetries, runTunnelFrom, h1, h2, h3, retryDelaySeconds]

theorem runTunnel_clean4 (codes : Nat → Int) (h1 : isCleanExit (codes 1) = false)
    (h2 : isCleanExit (codes 2) = false) (h3 : isCleanExit (codes 3) = false)
    (h4 : isCleanExit (codes 4) = true) :
    runTunnelConnection codes
      = { outcome := Except.ok (), attempts := 4, sleepSeconds := 3 * retryDelaySeconds } := by
  simp [runTunnelConnection, maxRetries, runTunnelFrom, h1, h2, h3, h4, retryDelaySeconds]

theorem runTunnel_allfail (codes : Nat → Int) (h1 : isCleanExit (codes 1) = false)
    (h2 : isCleanExit (codes 2) = false) (h3 : isCleanExit (codes 3) = false)
    (h4 : isCleanExit (codes 4) = false) :
    runTunnelConnection codes
      = { outcome := Except.error (codes 4), attempts := 4,
          sleepSeconds := 3 * retryDelaySeconds } := by
  simp [runTunnelConnection, maxRetries, runTunnelFrom, h1, h2, h3, h4, retryDelaySeconds]

/-- C8: the run loop makes at most `maxRetries`+1 = 4 attempts, i.e. at
most 3 retries after the first attempt; a clean exit (code 0 or the
SIGINT code 130) at the first attempt returns success immediately with
no sleep; a clean exit at attempt `j` after only abnormal exits returns
success after exactly `j` attempts and `j`-1 fixed 2-second sleeps
(retries happen only for abnormal exits); four consecutive abnormal
exits surface the terminal error naming the fourth exit code. -/
theorem runTunnel_retry_policy (codes : Nat → Int) :
    (runTunnelConnection codes).attempts ≤ maxRetries + 1
    ∧ (isCleanExit (codes 1) = true →
        runTunnelConnection codes
          = { outcome := Except.ok (), attempts := 1, sleepSeconds := 0 })
    ∧ (∀ j, 2 ≤ j → j ≤ maxRetries + 1 →
        (∀ k, 1 ≤ k → k < j → isCleanExit (codes k) = false) →
        isCleanExit (codes j) = true →
        (runTunnelConnection codes).outcome = Except.ok ()
        ∧ (runTunnelConnection codes).attempts = j
        ∧ (runTunnelConnection codes).sleepSeconds = (j - 1) * retryDelaySeconds)
    ∧ ((∀ k, 1 ≤ k → k ≤ maxRetries + 1 → isCleanExit (codes k) = false) →
        (runTunnelConnection codes).outcome = Except.error (codes 4)
        ∧ (runTunnelConnection codes).attempts = maxRetries + 1
        ∧ (runTunnelConnection codes).sleepSeconds = maxRetries * retryDelaySeconds) := by
  refine ⟨?_, ?_, ?_, ?_⟩
  · cases c1 : isCleanExit (codes 1) with
    | true => rw [runTunnel_clean1 codes c1]; simp [maxRetries]
    | false =>
        cases c2 : isCleanExit (codes 2) with
        | true => rw [runTunnel_clean2 codes c1 c2]; simp [maxRetries]
        | false =>
            cases c3 : isCleanExit (codes 3) with
            | true => rw [runTunnel_clean3 codes c1 c2 c3]; simp [maxRetries]
            | false =>
                cases c4 : isCleanExit (codes 4) with
                | true => rw [runTunnel_clean4 codes c1 c2 c3 c4]; simp [maxRetries]
                | false => rw [runTunnel_allfail codes c1 c2 c3 c4]; simp [maxRetries]
  · intro h1
    exact runTunnel_clean1 codes h1
  · intro j hj2 hj4 hprev hcl
    have h1 : isCleanExit (codes 1) = false := hprev 1 (by omega) (by omega)
    simp only [maxRetries] at hj4
    interval_cases j
    · refine ?_
      rw [runTunnel_clean2 codes h1 hcl]
      exact ⟨rfl, rfl, by simp⟩
    · have h2 : isCleanExit (codes 2) = false := hprev 2 (by omega) (by omega)
      rw [runTunnel_clean3 codes h1 h2 hcl]
      exact ⟨rfl, rfl, by simp⟩
    · have h2 : isCleanExit (codes 2) = false := hprev 2 (by omega) (by omega)
      have h3 : isCleanExit (codes 3) = false := hprev 3 (by omega) (by omega)
      rw [runTunnel_clean4 codes h1 h2 h3 hcl]
      exact ⟨rfl, rfl, by simp⟩
  · intro hall
    have h1 := hall 1 (by omega) (by simp [maxRetries])
    have h2 := hall 2 (by omega) (by simp [maxRetries])
    have h3 := hall 3 (by omega) (by simp [maxRetries])
    have h4 := hall 4 (by omega) (by simp [maxRetries])
    rw [runTunnel_allfail codes h1 h2 h3 h4]
    exact ⟨rfl, by simp [maxRetries], by simp [maxRetries]⟩

theorem runTunnel_retry_policy_witness :
    (runTunnelConnection demoCodes).outcome = Except.ok ()
    ∧ (runTunnelConnection demoCodes).attempts = 3
    ∧ (runTunnelConnection demoCodes).sleepSeconds = (3 - 1) * retryDelaySeconds := by
  exact (runTunnel_retry_policy demoCodes).2.2.1 3 (by omega) (by decide)
    (by intro k hk1 hk2; interval_cases k <;> decide) (by decide)
